import Mathlib

/-!
Shallow embedding of `src/server/api/router/comment.ts` (the comment router
of the codu application): data model, the five operations (`create`, `edit`,
`delete`, `like`, `get`) as pure functions over an explicit store state, and
theorems checking the specification's claims about them.

JavaScript truthiness that the source relies on is modelled explicitly:
`if (parentId)` treats `0` and `undefined` as falsy (`optNatTruthy`), and a
string guard such as `commentData?.userId && ...` treats the empty string as
falsy (`strTruthy`).
-/

/-- The two notification type constants imported from `@/utils/notifications`;
consumed as opaque tags. -/
inductive NotificationType where
  | newCommentOnYourPost
  | newReplyToYourComment
deriving DecidableEq, Repr

/-- A row of the `comment` table. -/
structure Comment where
  id : Nat
  userId : String
  postId : Nat
  parentId : Option Nat
  body : String
  createdAt : Nat
  updatedAt : Nat
deriving DecidableEq, Repr

/-- A row of the `like` table: composite identity, no payload. -/
structure Like where
  userId : String
  commentId : Nat
deriving DecidableEq, Repr

/-- A row of the `post` table (only the columns the router reads). -/
structure Post where
  id : Nat
  userId : String
deriving DecidableEq, Repr

/-- A row of the `notification` table (the columns the router writes). -/
structure Notification where
  notifierId : String
  userId : String
  type : NotificationType
  postId : Nat
  commentId : Nat
deriving DecidableEq, Repr

/-- A row of the `user` table, as projected by `SELECT_CHILD_CONFIG`. -/
structure UserProjection where
  id : String
  name : String
  image : String
  username : String
  email : String
deriving DecidableEq, Repr

/-- The persistent store consumed by the router. -/
structure DB where
  posts : List Post
  users : List UserProjection
  comments : List Comment
  likes : List Like
  notifications : List Notification
deriving DecidableEq, Repr

/-- JS truthiness of an optional numeric id: `undefined` and `0` are falsy. -/
def optNatTruthy : Option Nat → Bool
  | none => false
  | some n => n != 0

/-- JS truthiness of a string: the empty string is falsy. -/
def strTruthy (s : String) : Bool := s != ""

/-- `FORBIDDEN` is the only TRPC error code this router throws. -/
inductive RpcError where
  | forbidden
deriving DecidableEq, Repr

namespace CommentRouter

/-- `create`: inserts a comment row (with a store-generated `newId`), then the
mutually exclusive notification fan-out, and returns the new comment's id.
`ctx.db.insert(comment).values({...})` appends the new row; the parent lookup
happens on the store state after that insert, exactly as in the source. -/
def create (db : DB) (newId : Nat) (caller : String) (body : String)
    (postId : Nat) (parentId : Option Nat) (now : Nat) : DB × Nat :=
  let postOwnerId : Option String :=
    (db.posts.find? (fun p => p.id == postId)).map (·.userId)
  let createdComment : Comment :=
    { id := newId, userId := caller, postId := postId, parentId := parentId,
      body := body, createdAt := now, updatedAt := now }
  let db1 : DB := { db with comments := db.comments ++ [createdComment] }
  let db2 : DB :=
    match parentId with
    | some pid =>
      if pid == 0 then db1
      else
        match db1.comments.find? (fun c => c.id == pid) with
        | some commentData =>
          if strTruthy commentData.userId && commentData.userId != caller then
            { db1 with notifications := db1.notifications ++
                [{ notifierId := caller, type := .newReplyToYourComment,
                   postId := postId, userId := commentData.userId,
                   commentId := createdComment.id }] }
          else db1
        | none => db1
    | none => db1
  let db3 : DB :=
    if !optNatTruthy parentId then
      match postOwnerId with
      | some ownerId =>
        if strTruthy ownerId && ownerId != caller then
          { db2 with notifications := db2.notifications ++
              [{ notifierId := caller, type := .newCommentOnYourPost,
                 postId := postId, userId := ownerId,
                 commentId := createdComment.id }] }
        else db2
      | none => db2
    else db2
  (db3, createdComment.id)

/-- The raw result of an ORM `update` statement executed without `returning()`:
a driver outcome, not a comment row. -/
structure UpdateOutcome where
  rowCount : Nat
deriving DecidableEq, Repr

/-- What `edit` returns on success: either the unchanged stored record
(identical-body short circuit) or the raw update outcome. -/
inductive EditResult where
  | record (c : Comment)
  | updated (o : UpdateOutcome)
deriving DecidableEq, Repr

/-- `edit`: ownership check via `currentComment?.userId !== ctx.session.user.id`
(a missing row compares as not-owner), identical-body short circuit, else an
update that sets only `body` on the matching rows. -/
def edit (db : DB) (caller : String) (id : Nat) (body : String) :
    DB × Except RpcError EditResult :=
  match db.comments.find? (fun c => c.id == id) with
  | none => (db, .error .forbidden)
  | some currentComment =>
    if currentComment.userId != caller then (db, .error .forbidden)
    else if currentComment.body == body then (db, .ok (.record currentComment))
    else
      let updatedComments :=
        db.comments.map (fun c => if c.id == id then { c with body := body } else c)
      ({ db with comments := updatedComments },
       .ok (.updated { rowCount := db.comments.countP (fun c => c.id == id) }))

/-- `delete`: same ownership check as `edit`, then a physical
delete-by-id-returning; returns the deleted row's id. -/
def deleteComment (db : DB) (caller : String) (id : Nat) :
    DB × Except RpcError Nat :=
  match db.comments.find? (fun c => c.id == id) with
  | none => (db, .error .forbidden)
  | some currentComment =>
    if currentComment.userId != caller then (db, .error .forbidden)
    else
      let deletedComment :=
        ((db.comments.filter (fun c => c.id == id)).head?).getD currentComment
      ({ db with comments := db.comments.filter (fun c => !(c.id == id)) },
       .ok deletedComment.id)

/-- `like`: toggle. Looks for an existing Like row for (caller, commentId);
deletes the matching rows and returns the first deleted record if found,
otherwise inserts one and returns it. -/
def likeOp (db : DB) (caller : String) (commentId : Nat) : DB × Option Like :=
  let isPair := fun (l : Like) => l.userId == caller && l.commentId == commentId
  match db.likes.find? isPair with
  | some _ =>
    ({ db with likes := db.likes.filter (fun l => !isPair l) },
     (db.likes.filter isPair).head?)
  | none =>
    let newLike : Like := { userId := caller, commentId := commentId }
    ({ db with likes := db.likes ++ [newLike] }, some newLike)

/-! ## `get`: the six-level nested tree fetch and the recursive reshape -/

/-- The `where` clause of the `likes` sub-select in `SELECT_CHILD_CONFIG`:
filtered to the caller's rows when a truthy caller id exists; unrestricted
otherwise. -/
def likesWhere (caller : Option String) (l : Like) : Bool :=
  match caller with
  | some u => if strTruthy u then l.userId == u else true
  | none => true

/-- The `likes` rows fetched for one comment node (their `userId` column). -/
def likesForComment (db : DB) (caller : Option String) (cid : Nat) : List String :=
  (db.likes.filter (fun l => l.commentId == cid && likesWhere caller l)).map (·.userId)

/-- The `_count.likes` aggregate for one comment node (unfiltered). -/
def likeCountOf (db : DB) (cid : Nat) : Nat :=
  (db.likes.filter (fun l => l.commentId == cid)).length

/-- The `user` relation projection for one comment node. -/
def userProjOf (db : DB) (uid : String) : Option UserProjection :=
  db.users.find? (fun u => u.id == uid)

/-- The stored children of a comment (the `children` relation: rows whose
`parentId` references it). -/
def childrenOf (db : DB) (pid : Nat) : List Comment :=
  db.comments.filter (fun c => c.parentId == some pid)

/-- One node of the raw `findMany` response: the fields of
`SELECT_CHILD_CONFIG`, plus a `children` field that is absent (`none`) at the
innermost nesting level of the unrolled select. -/
inductive RawNode where
  | mk (id : Nat) (body : String) (createdAt : Nat) (updatedAt : Nat)
      (likeCountAgg : Nat) (user : Option UserProjection) (likes : List String)
      (children : Option (List RawNode)) : RawNode
deriving Repr

/-- Fetch a comment with `SELECT_CHILD_CONFIG`, unrolling the `children`
select `depth` more times; the source unrolls it 6 times below a top-level
comment. -/
def fetchNode (db : DB) (caller : Option String) : Nat → Comment → RawNode
  | 0, c =>
    .mk c.id c.body c.createdAt c.updatedAt (likeCountOf db c.id)
      (userProjOf db c.userId) (likesForComment db caller c.id) none
  | Nat.succ d, c =>
    .mk c.id c.body c.createdAt c.updatedAt (likeCountOf db c.id)
      (userProjOf db c.userId) (likesForComment db caller c.id)
      (some ((childrenOf db c.id).map (fun ch => fetchNode db caller d ch)))

/-- One node of the public shape produced by `shapeComments`. -/
inductive Shaped where
  | mk (id : Nat) (body : String) (createdAt : Nat) (updatedAt : Nat)
      (user : Option UserProjection) (youLikedThis : Bool) (likeCount : Nat)
      (children : Option (List Shaped)) : Shaped
deriving Repr

def Shaped.id : Shaped → Nat
  | .mk i _ _ _ _ _ _ _ => i

def Shaped.youLikedThis : Shaped → Bool
  | .mk _ _ _ _ _ y _ _ => y

def Shaped.likeCount : Shaped → Nat
  | .mk _ _ _ _ _ _ k _ => k

def Shaped.children : Shaped → Option (List Shaped)
  | .mk _ _ _ _ _ _ _ ch => ch

mutual

/-- `shapeComments` applied to one node: derives `youLikedThis` from the
fetched like rows (`youLikeThis.some(obj => obj.userId === userId)`), copies
`_count.likes` into `likeCount`, and recurses into `children` when that field
is present. -/
def shapeComment (caller : Option String) : RawNode → Shaped
  | .mk i b ca ua cnt u likes ch =>
    .mk i b ca ua u (likes.any (fun uid => (some uid : Option String) == caller)) cnt
      (match ch with
       | none => none
       | some cs => some (shapeComments caller cs))

/-- `shapeComments`: maps `shapeComment` over a fetched array. -/
def shapeComments (caller : Option String) : List RawNode → List Shaped
  | [] => []
  | c :: cs => shapeComment caller c :: shapeComments caller cs

end

/-- Insert into a list kept in descending `createdAt` order. -/
def insertDesc (c : Comment) : List Comment → List Comment
  | [] => [c]
  | x :: xs => if c.createdAt > x.createdAt then c :: x :: xs else x :: insertDesc c xs

/-- `orderBy: { createdAt: "desc" }` on the top-level fetch. -/
def sortByCreatedAtDesc : List Comment → List Comment
  | [] => []
  | x :: xs => insertDesc x (sortByCreatedAtDesc xs)

/-- `get`: counts all comment rows of the post (any depth), fetches the
top-level comments (`parentId: null`) ordered by `createdAt` descending with
six unrolled levels of children, and reshapes them. -/
def getComments (db : DB) (caller : Option String) (postId : Nat) :
    List Shaped × Nat :=
  let count := (db.comments.filter (fun c => c.postId == postId)).length
  let response :=
    (sortByCreatedAtDesc
      (db.comments.filter (fun c => c.postId == postId && c.parentId == none))).map
      (fun c => fetchNode db caller 6 c)
  (shapeComments caller response, count)

/-! ## Derived observations used to state the claims -/

mutual

/-- Maximum depth of a node reachable strictly below this node (0 when the
`children` field is absent or empty). -/
def Shaped.height : Shaped → Nat
  | .mk _ _ _ _ _ _ _ none => 0
  | .mk _ _ _ _ _ _ _ (some cs) => Shaped.heightList cs

/-- Maximum over a children array of `height + 1`. -/
def Shaped.heightList : List Shaped → Nat
  | [] => 0
  | x :: xs => max (x.height + 1) (Shaped.heightList xs)

end

mutual

/-- Every node reachable in a shaped tree, the root included. -/
def Shaped.allNodes : Shaped → List Shaped
  | .mk i b ca ua u y k none => [.mk i b ca ua u y k none]
  | .mk i b ca ua u y k (some cs) =>
      .mk i b ca ua u y k (some cs) :: Shaped.allNodesList cs

/-- Every node reachable in a forest of shaped trees. -/
def Shaped.allNodesList : List Shaped → List Shaped
  | [] => []
  | x :: xs => x.allNodes ++ Shaped.allNodesList xs

end

/-- Number of Like rows for one (user, comment) pair. -/
def countPair (u : String) (c : Nat) (ls : List Like) : Nat :=
  ls.countP (fun l => l.userId == u && l.commentId == c)

/-- A concrete store used to exercise the theorems: post 1 by alice, a chain
of eight comments each replying to the previous one (deeper than the 6-level
cutoff), and one like by alice on comment 2. -/
def dbW : DB :=
  { posts := [{ id := 1, userId := "alice" }]
    users := []
    comments :=
      [ { id := 1, userId := "alice", postId := 1, parentId := none,
          body := "c1", createdAt := 10, updatedAt := 10 }
      , { id := 2, userId := "bob", postId := 1, parentId := some 1,
          body := "c2", createdAt := 11, updatedAt := 11 }
      , { id := 3, userId := "alice", postId := 1, parentId := some 2,
          body := "c3", createdAt := 12, updatedAt := 12 }
      , { id := 4, userId := "bob", postId := 1, parentId := some 3,
          body := "c4", createdAt := 13, updatedAt := 13 }
      , { id := 5, userId := "alice", postId := 1, parentId := some 4,
          body := "c5", createdAt := 14, updatedAt := 14 }
      , { id := 6, userId := "bob", postId := 1, parentId := some 5,
          body := "c6", createdAt := 15, updatedAt := 15 }
      , { id := 7, userId := "alice", postId := 1, parentId := some 6,
          body := "c7", createdAt := 16, updatedAt := 16 }
      , { id := 8, userId := "bob", postId := 1, parentId := some 7,
          body := "c8", createdAt := 17, updatedAt := 17 } ]
    likes := [{ userId := "alice", commentId := 2 }]
    notifications := [] }

/-- Fallback node for reading the head of a shaped forest. -/
def defaultShaped : Shaped := .mk 0 "" 0 0 none false 0 none

/-- The first tree returned by `get(1)` on `dbW` when alice reads. -/
def topW : Shaped :=
  (getComments dbW (some "alice") 1).1.head?.getD defaultShaped

/-- The second reachable node of that tree: the node of comment 2, the
comment alice liked. -/
def nodeW : Shaped := (topW.allNodes.drop 1).head?.getD defaultShaped

end CommentRouter

open CommentRouter in
/-- Store well-formedness: ids are nonzero (database serials) and user ids
are nonempty strings, so the JS truthiness guards in the source cannot
misfire on legitimate data. -/
def DB.WF (db : DB) : Prop :=
  (∀ c ∈ db.comments, c.id ≠ 0 ∧ c.userId ≠ "") ∧
  (∀ p ∈ db.posts, p.id ≠ 0 ∧ p.userId ≠ "")

instance (db : DB) : Decidable db.WF := by
  unfold DB.WF; infer_instance

/-! ## Helper lemmas -/

namespace CommentRouter

theorem find?_append_left {α : Type} (p : α → Bool) {l : List α} (l' : List α)
    {a : α} (h : l.find? p = some a) : (l ++ l').find? p = some a := by
  rw [List.find?_append, h]; rfl

theorem find?_append_right {α : Type} (p : α → Bool) {l : List α} (l' : List α)
    (h : l.find? p = none) : (l ++ l').find? p = l'.find? p := by
  rw [List.find?_append, h]; rfl

theorem shapeComments_eq_map (caller : Option String) (l : List RawNode) :
    shapeComments caller l = l.map (shapeComment caller) := by
  induction l with
  | nil => rfl
  | cons x xs ih => rw [shapeComments, ih]; rfl

theorem find?_eq_head?_filter {α : Type} (p : α → Bool) (l : List α) :
    l.find? p = (l.filter p).head? := by
  induction l with
  | nil => rfl
  | cons x xs ih =>
    by_cases h : p x = true
    · rw [List.find?_cons_of_pos _ h, List.filter_cons_of_pos h]
      rfl
    · rw [List.find?_cons_of_neg _ h, List.filter_cons_of_neg h]
      exact ih

theorem like_pair_eq {caller : String} {cid : Nat} {l : Like}
    (h : (l.userId == caller && l.commentId == cid) = true) :
    l = { userId := caller, commentId := cid } := by
  cases l
  simp only [Bool.and_eq_true, beq_iff_eq] at h
  simp [h.1, h.2]

theorem countPair_filter_not_pair (caller : String) (cid : Nat)
    (ls : List Like) (u : String) (c : Nat) :
    countPair u c
      (ls.filter (fun l => !(l.userId == caller && l.commentId == cid))) =
      if u = caller ∧ c = cid then 0 else countPair u c ls := by
  unfold countPair
  rw [List.countP_filter]
  by_cases h : u = caller ∧ c = cid
  · obtain ⟨rfl, rfl⟩ := h
    rw [if_pos ⟨rfl, rfl⟩]
    rw [List.countP_eq_zero]
    intro a _
    cases hb : a.userId == u && a.commentId == c <;> simp [hb]
  · rw [if_neg h]
    apply List.countP_congr
    intro x _
    simp only [Bool.and_eq_true, beq_iff_eq, Bool.not_eq_true',
      Bool.and_eq_false_iff, beq_eq_false_iff_ne]
    constructor
    · rintro ⟨hx, _⟩
      exact hx
    · rintro ⟨rfl, rfl⟩
      exact ⟨⟨rfl, rfl⟩, not_and_or.mp h⟩

theorem countPair_singleton (caller u : String) (cid c : Nat) :
    countPair u c [{ userId := caller, commentId := cid }] =
      if u = caller ∧ c = cid then 1 else 0 := by
  unfold countPair
  by_cases h : u = caller ∧ c = cid
  · obtain ⟨rfl, rfl⟩ := h
    simp
  · rw [if_neg h]
    simp only [List.countP_cons, List.countP_nil, Nat.zero_add]
    rw [if_neg]
    simp only [Bool.and_eq_true, beq_iff_eq]
    rintro ⟨h1, h2⟩
    exact h ⟨h1.symm, h2.symm⟩

theorem countPair_zero_of_find?_none (caller : String) (cid : Nat)
    (ls : List Like)
    (h : ls.find? (fun l => l.userId == caller && l.commentId == cid) = none) :
    countPair caller cid ls = 0 := by
  unfold countPair
  rw [List.countP_eq_zero]
  intro a ha
  exact (List.find?_eq_none.mp h) a ha

theorem countPair_pos_of_find?_some (caller : String) (cid : Nat)
    (ls : List Like) (x : Like)
    (h : ls.find? (fun l => l.userId == caller && l.commentId == cid) = some x) :
    1 ≤ countPair caller cid ls := by
  have hx := List.find?_some h
  have hmem := List.mem_of_find?_eq_some h
  unfold countPair
  exact List.countP_pos_iff.mpr ⟨x, hmem, hx⟩

theorem create_reply_notifies (db : DB) (newId : Nat) (caller body : String)
    (postId pid : Nat) (now : Nat) (parent : Comment)
    (hfind : db.comments.find? (fun c => c.id == pid) = some parent)
    (hpid : pid ≠ 0) (hne : parent.userId ≠ caller)
    (hne' : parent.userId ≠ "") :
    (create db newId caller body postId (some pid) now).1.notifications =
      db.notifications ++
        [{ notifierId := caller, type := NotificationType.newReplyToYourComment,
           postId := postId, userId := parent.userId, commentId := newId }] := by
  simp only [create]
  rw [find?_append_left _ _ hfind]
  simp [hpid, hne, hne', strTruthy, optNatTruthy]

theorem create_top_notifies (db : DB) (newId : Nat) (caller body : String)
    (postId : Nat) (now : Nat) (post : Post)
    (hfind : db.posts.find? (fun p => p.id == postId) = some post)
    (hne : post.userId ≠ caller) (hne' : post.userId ≠ "") :
    (create db newId caller body postId none now).1.notifications =
      db.notifications ++
        [{ notifierId := caller, type := NotificationType.newCommentOnYourPost,
           postId := postId, userId := post.userId, commentId := newId }] := by
  simp only [create]
  rw [hfind]
  simp [hne, hne', strTruthy, optNatTruthy]

theorem create_missing_parent_no_notif (db : DB) (newId : Nat)
    (caller body : String) (postId pid : Nat) (now : Nat) (hpid : pid ≠ 0)
    (hfind : db.comments.find? (fun c => c.id == pid) = none) :
    (create db newId caller body postId (some pid) now).1.notifications =
      db.notifications := by
  simp only [create]
  rw [find?_append_right _ _ hfind]
  by_cases h : newId == pid <;>
    simp [h, hpid, optNatTruthy, List.find?]

theorem create_self_reply_no_notif (db : DB) (newId : Nat)
    (caller body : String) (postId pid : Nat) (now : Nat) (parent : Comment)
    (hpid : pid ≠ 0)
    (hfind : db.comments.find? (fun c => c.id == pid) = some parent)
    (heq : parent.userId = caller) :
    (create db newId caller body postId (some pid) now).1.notifications =
      db.notifications := by
  simp only [create]
  rw [find?_append_left _ _ hfind]
  simp [hpid, heq, optNatTruthy]

theorem create_missing_post_no_notif (db : DB) (newId : Nat)
    (caller body : String) (postId : Nat) (now : Nat)
    (hfind : db.posts.find? (fun p => p.id == postId) = none) :
    (create db newId caller body postId none now).1.notifications =
      db.notifications := by
  simp only [create]
  rw [hfind]
  simp [optNatTruthy]

theorem create_self_comment_no_notif (db : DB) (newId : Nat)
    (caller body : String) (postId : Nat) (now : Nat) (post : Post)
    (hfind : db.posts.find? (fun p => p.id == postId) = some post)
    (heq : post.userId = caller) :
    (create db newId caller body postId none now).1.notifications =
      db.notifications := by
  simp only [create]
  rw [hfind]
  simp [heq, optNatTruthy]

theorem create_appends_at_most_one (db : DB) (newId : Nat)
    (caller body : String) (postId : Nat) (parentId : Option Nat) (now : Nat) :
    (create db newId caller body postId parentId now).1.notifications =
      db.notifications ∨
    ∃ n, (create db newId caller body postId parentId now).1.notifications =
      db.notifications ++ [n] := by
  simp only [create]
  repeat' split
  all_goals simp_all [optNatTruthy, strTruthy]

theorem create_returns_newId (db : DB) (newId : Nat) (caller body : String)
    (postId : Nat) (parentId : Option Nat) (now : Nat) :
    (create db newId caller body postId parentId now).2 = newId := rfl

/-! ## Claim theorems -/

/-- C2: the two notification cases of `create` are mutually exclusive: with
`parentId` set and a stored parent whose author differs from the caller,
exactly one NEW_REPLY_TO_YOUR_COMMENT notification is appended, addressed to
the parent author; with `parentId` unset and a stored post whose author
differs from the caller, exactly one NEW_COMMENT_ON_YOUR_POST notification is
appended, addressed to the post author; and no call ever appends more than
one notification. -/
theorem create_notification_exclusive (db : DB) (newId : Nat)
    (caller body : String) (postId : Nat) (parentId : Option Nat) (now : Nat)
    (hwf : db.WF) :
    (∀ pid parent, parentId = some pid →
      db.comments.find? (fun c => c.id == pid) = some parent →
      parent.userId ≠ caller →
      (create db newId caller body postId parentId now).1.notifications =
        db.notifications ++
          [{ notifierId := caller, type := NotificationType.newReplyToYourComment,
             postId := postId, userId := parent.userId, commentId := newId }]) ∧
    (∀ post, parentId = none →
      db.posts.find? (fun p => p.id == postId) = some post →
      post.userId ≠ caller →
      (create db newId caller body postId parentId now).1.notifications =
        db.notifications ++
          [{ notifierId := caller, type := NotificationType.newCommentOnYourPost,
             postId := postId, userId := post.userId, commentId := newId }]) ∧
    ((create db newId caller body postId parentId now).1.notifications =
        db.notifications ∨
      ∃ n, (create db newId caller body postId parentId now).1.notifications =
        db.notifications ++ [n]) := by
  refine ⟨?_, ?_, create_appends_at_most_one db newId caller body postId parentId now⟩
  · rintro pid parent rfl hfind hne
    have hmem := List.mem_of_find?_eq_some hfind
    have hid : parent.id = pid := by simpa using List.find?_some hfind
    exact create_reply_notifies db newId caller body postId pid now parent hfind
      (hid ▸ (hwf.1 parent hmem).1) hne ((hwf.1 parent hmem).2)
  · rintro post rfl hfind hne
    have hmem := List.mem_of_find?_eq_some hfind
    exact create_top_notifies db newId caller body postId now post hfind hne
      ((hwf.2 post hmem).2)

/-- Witness for C2: bob replies to alice's comment 1; exactly one
NEW_REPLY_TO_YOUR_COMMENT notification addressed to alice is appended. -/
theorem create_notification_exclusive_witness :
    (create dbW 9 "bob" "hi" 1 (some 1) 20).1.notifications =
      dbW.notifications ++
        [{ notifierId := "bob", type := NotificationType.newReplyToYourComment,
           postId := 1, userId := "alice", commentId := 9 }] :=
  (create_notification_exclusive dbW 9 "bob" "hi" 1 (some 1) 20 (by decide)).1
    1
    { id := 1, userId := "alice", postId := 1, parentId := none,
      body := "c1", createdAt := 10, updatedAt := 10 }
    rfl rfl (by decide)

/-- C8: `create` never raises an error: it is a total function that returns
the newly inserted comment's id, and when the relevant recipient equals the
caller, or when the referenced post or parent comment is not found, zero
notifications are appended while the call still succeeds. -/
theorem create_silent_cases (db : DB) (newId : Nat) (caller body : String)
    (postId : Nat) (parentId : Option Nat) (now : Nat) (hwf : db.WF) :
    ((create db newId caller body postId parentId now).2 = newId) ∧
    (∀ pid, parentId = some pid → pid ≠ 0 →
      db.comments.find? (fun c => c.id == pid) = none →
      (create db newId caller body postId parentId now).1.notifications =
        db.notifications) ∧
    (∀ pid parent, parentId = some pid →
      db.comments.find? (fun c => c.id == pid) = some parent →
      parent.userId = caller →
      (create db newId caller body postId parentId now).1.notifications =
        db.notifications) ∧
    (parentId = none →
      db.posts.find? (fun p => p.id == postId) = none →
      (create db newId caller body postId parentId now).1.notifications =
        db.notifications) ∧
    (∀ post, parentId = none →
      db.posts.find? (fun p => p.id == postId) = some post →
      post.userId = caller →
      (create db newId caller body postId parentId now).1.notifications =
        db.notifications) := by
  refine ⟨create_returns_newId db newId caller body postId parentId now,
    ?_, ?_, ?_, ?_⟩
  · rintro pid rfl hpid hfind
    exact create_missing_parent_no_notif db newId caller body postId pid now
      hpid hfind
  · rintro pid parent rfl hfind heq
    have hmem := List.mem_of_find?_eq_some hfind
    have hid : parent.id = pid := by simpa using List.find?_some hfind
    exact create_self_reply_no_notif db newId caller body postId pid now parent
      (hid ▸ (hwf.1 parent hmem).1) hfind heq
  · rintro rfl hfind
    exact create_missing_post_no_notif db newId caller body postId now hfind
  · rintro post rfl hfind heq
    exact create_self_comment_no_notif db newId caller body postId now post
      hfind heq

/-- Witness for C8: alice replies to her own comment 1; the call succeeds,
returns the new id, and appends no notification. -/
theorem create_silent_cases_witness :
    (create dbW 9 "alice" "hi" 1 (some 1) 20).2 = 9 ∧
    (create dbW 9 "alice" "hi" 1 (some 1) 20).1.notifications =
      dbW.notifications := by
  have h := create_silent_cases dbW 9 "alice" "hi" 1 (some 1) 20 (by decide)
  exact ⟨h.1, h.2.2.1 1
    { id := 1, userId := "alice", postId := 1, parentId := none,
      body := "c1", createdAt := 10, updatedAt := 10 }
    rfl rfl rfl⟩

theorem likeOp_found (db : DB) (caller : String) (cid : Nat) (x : Like)
    (h : db.likes.find? (fun l => l.userId == caller && l.commentId == cid)
      = some x) :
    (likeOp db caller cid).1.likes =
      db.likes.filter (fun l => !(l.userId == caller && l.commentId == cid)) ∧
    (likeOp db caller cid).2 =
      (db.likes.filter
        (fun l => l.userId == caller && l.commentId == cid)).head? ∧
    (likeOp db caller cid).1.posts = db.posts ∧
    (likeOp db caller cid).1.comments = db.comments ∧
    (likeOp db caller cid).1.notifications = db.notifications := by
  simp [likeOp, h]

theorem likeOp_absent (db : DB) (caller : String) (cid : Nat)
    (h : db.likes.find? (fun l => l.userId == caller && l.commentId == cid)
      = none) :
    (likeOp db caller cid).1.likes =
      db.likes ++ [{ userId := caller, commentId := cid }] ∧
    (likeOp db caller cid).2 = some { userId := caller, commentId := cid } ∧
    (likeOp db caller cid).1.posts = db.posts ∧
    (likeOp db caller cid).1.comments = db.comments ∧
    (likeOp db caller cid).1.notifications = db.notifications := by
  simp [likeOp, h]

/-- C3: `like` toggles. If a Like row for (caller, commentId) exists it is
deleted (the pair count drops to zero) and the deleted record is returned;
otherwise one row is inserted and the created record is returned; no other
(user, comment) pair is affected; from a store holding at most one Like per
pair the result again holds at most one Like per pair; and two consecutive
`like` calls by the same user on the same comment restore the original like
state of every pair. -/
theorem like_toggle (db : DB) (caller : String) (cid : Nat)
    (hinv : ∀ u c, countPair u c db.likes ≤ 1) :
    ((db.likes.find? (fun l => l.userId == caller && l.commentId == cid)).isSome
        = true →
      countPair caller cid (likeOp db caller cid).1.likes = 0 ∧
      (likeOp db caller cid).2 = some { userId := caller, commentId := cid }) ∧
    (db.likes.find? (fun l => l.userId == caller && l.commentId == cid) = none →
      (likeOp db caller cid).1.likes =
        db.likes ++ [{ userId := caller, commentId := cid }] ∧
      (likeOp db caller cid).2 = some { userId := caller, commentId := cid }) ∧
    (∀ u c, ¬(u = caller ∧ c = cid) →
      countPair u c (likeOp db caller cid).1.likes = countPair u c db.likes) ∧
    (∀ u c, countPair u c (likeOp db caller cid).1.likes ≤ 1) ∧
    (∀ u c, countPair u c
        (likeOp (likeOp db caller cid).1 caller cid).1.likes =
      countPair u c db.likes) := by
  cases hf : db.likes.find? (fun l => l.userId == caller && l.commentId == cid) with
  | some x =>
    have hx : x = { userId := caller, commentId := cid } := by
      have hp := List.find?_some hf
      exact like_pair_eq hp
    obtain ⟨hlikes1, hres1, _, _, _⟩ := likeOp_found db caller cid x hf
    have hhead : (db.likes.filter
        (fun l => l.userId == caller && l.commentId == cid)).head? = some x := by
      rw [← find?_eq_head?_filter]
      exact hf
    have hres : (likeOp db caller cid).2 =
        some { userId := caller, commentId := cid } := by
      rw [hres1, hhead, hx]
    have hfind1 : (likeOp db caller cid).1.likes.find?
        (fun l => l.userId == caller && l.commentId == cid) = none := by
      rw [hlikes1, List.find?_eq_none]
      intro a ha
      have := (List.mem_filter.mp ha).2
      simp only [Bool.not_eq_true'] at this
      simp [this]
    have hcount1 : countPair caller cid (likeOp db caller cid).1.likes = 0 := by
      rw [hlikes1, countPair_filter_not_pair, if_pos ⟨rfl, rfl⟩]
    have hframe : ∀ u c, ¬(u = caller ∧ c = cid) →
        countPair u c (likeOp db caller cid).1.likes = countPair u c db.likes := by
      intro u c huc
      rw [hlikes1, countPair_filter_not_pair, if_neg huc]
    refine ⟨fun _ => ⟨hcount1, hres⟩, ?_, hframe, ?_, ?_⟩
    · intro hnone
      exact Option.noConfusion hnone
    · intro u c
      by_cases huc : u = caller ∧ c = cid
      · obtain ⟨rfl, rfl⟩ := huc
        rw [hcount1]
        exact Nat.zero_le 1
      · rw [hframe u c huc]
        exact hinv u c
    · intro u c
      obtain ⟨hsecond, _, _, _, _⟩ :=
        likeOp_absent (likeOp db caller cid).1 caller cid hfind1
      rw [hsecond]
      unfold countPair
      rw [List.countP_append]
      by_cases huc : u = caller ∧ c = cid
      · obtain ⟨rfl, rfl⟩ := huc
        have h1 : countPair u c db.likes = 1 :=
          Nat.le_antisymm (hinv u c) (countPair_pos_of_find?_some u c db.likes x hf)
        have h0 := hcount1
        unfold countPair at h0 h1
        rw [h0, h1]
        simp
      · have hfr := hframe u c huc
        unfold countPair at hfr
        rw [hfr]
        have hsing := countPair_singleton caller u cid c
        unfold countPair at hsing
        rw [hsing, if_neg huc, Nat.add_zero]
  | none =>
    obtain ⟨hlikes1, hres, _, _, _⟩ := likeOp_absent db caller cid hf
    have hzero : countPair caller cid db.likes = 0 :=
      countPair_zero_of_find?_none caller cid db.likes hf
    have hframe : ∀ u c, ¬(u = caller ∧ c = cid) →
        countPair u c (likeOp db caller cid).1.likes = countPair u c db.likes := by
      intro u c huc
      rw [hlikes1]
      unfold countPair
      rw [List.countP_append]
      have hsing := countPair_singleton caller u cid c
      unfold countPair at hsing
      rw [hsing, if_neg huc, Nat.add_zero]
    have hfind1 : (likeOp db caller cid).1.likes.find?
        (fun l => l.userId == caller && l.commentId == cid) =
        some { userId := caller, commentId := cid } := by
      rw [hlikes1, find?_append_right _ _ hf]
      simp
    refine ⟨?_, fun _ => ⟨hlikes1, hres⟩, hframe, ?_, ?_⟩
    · intro hs
      exact Bool.noConfusion hs
    · intro u c
      by_cases huc : u = caller ∧ c = cid
      · obtain ⟨rfl, rfl⟩ := huc
        rw [hlikes1]
        unfold countPair
        rw [List.countP_append]
        have hsing := countPair_singleton u u c c
        unfold countPair at hsing
        rw [hsing, if_pos ⟨rfl, rfl⟩]
        unfold countPair at hzero
        rw [hzero]
      · rw [hframe u c huc]
        exact hinv u c
    · intro u c
      obtain ⟨hsecond, _, _, _, _⟩ :=
        likeOp_found (likeOp db caller cid).1 caller cid _ hfind1
      rw [hsecond, hlikes1, List.filter_append]
      have hrow0 : ([{ userId := caller, commentId := cid }] : List Like).filter
          (fun l => !(l.userId == caller && l.commentId == cid)) = [] := by
        simp
      rw [hrow0, List.append_nil, countPair_filter_not_pair]
      by_cases huc : u = caller ∧ c = cid
      · obtain ⟨rfl, rfl⟩ := huc
        rw [if_pos ⟨rfl, rfl⟩, hzero]
      · rw [if_neg huc]

/-- Witness for C3: alice already liked comment 2; the call removes that row
(count drops to zero), returns the removed record, and a second call restores
the original count of every pair. -/
theorem like_toggle_witness :
    (countPair "alice" 2 (likeOp dbW "alice" 2).1.likes = 0 ∧
      (likeOp dbW "alice" 2).2 = some { userId := "alice", commentId := 2 }) ∧
    countPair "alice" 2
        (likeOp (likeOp dbW "alice" 2).1 "alice" 2).1.likes =
      countPair "alice" 2 dbW.likes := by
  have h := like_toggle dbW "alice" 2 (fun u c => List.countP_le_length _)
  exact ⟨h.1 (by decide), h.2.2.2.2 "alice" 2⟩

theorem heightList_le {l : List Shaped} {n : Nat}
    (h : ∀ x ∈ l, Shaped.height x ≤ n) : Shaped.heightList l ≤ n + 1 := by
  induction l with
  | nil =>
    rw [Shaped.heightList]
    exact Nat.zero_le _
  | cons x xs ih =>
    rw [Shaped.heightList]
    refine max_le ?_ (ih (fun y hy => h y (List.mem_cons_of_mem _ hy)))
    exact Nat.succ_le_succ (h x (List.mem_cons_self ..))

theorem shape_fetch_height (db : DB) (caller : Option String) :
    ∀ (d : Nat) (c : Comment),
      (shapeComment caller (fetchNode db caller d c)).height ≤ d := by
  intro d
  induction d with
  | zero =>
    intro c
    simp [fetchNode, shapeComment, Shaped.height]
  | succ d ih =>
    intro c
    simp only [fetchNode, shapeComment, Shaped.height]
    apply heightList_le
    intro x hx
    rw [shapeComments_eq_map] at hx
    rcases List.mem_map.mp hx with ⟨r, hr, rfl⟩
    rcases List.mem_map.mp hr with ⟨ch, _, rfl⟩
    exact ih ch

theorem mem_allNodesList {s : Shaped} : ∀ {L : List Shaped},
    s ∈ Shaped.allNodesList L → ∃ t ∈ L, s ∈ t.allNodes := by
  intro L
  induction L with
  | nil =>
    intro h
    cases h
  | cons x xs ih =>
    intro h
    rw [Shaped.allNodesList] at h
    rcases List.mem_append.mp h with h | h
    · exact ⟨x, List.mem_cons_self .., h⟩
    · rcases ih h with ⟨t, ht, hst⟩
      exact ⟨t, List.mem_cons_of_mem _ ht, hst⟩

theorem likes_any_iff (db : DB) (caller : Option String) (cid : Nat) :
    ((likesForComment db caller cid).any
        (fun u => (some u : Option String) == caller)) = true ↔
    ∃ l ∈ db.likes, l.commentId = cid ∧ some l.userId = caller := by
  unfold likesForComment
  rw [List.any_eq_true]
  constructor
  · rintro ⟨u, hu, hcmp⟩
    rcases List.mem_map.mp hu with ⟨l, hl, rfl⟩
    rcases List.mem_filter.mp hl with ⟨hmem, hcond⟩
    have h1 : l.commentId = cid := by
      have := ((Bool.and_eq_true ..).mp hcond).1
      simpa using this
    refine ⟨l, hmem, h1, ?_⟩
    simpa using hcmp
  · rintro ⟨l, hmem, hcid, hcaller⟩
    refine ⟨l.userId, ?_, by simpa using hcaller⟩
    apply List.mem_map.mpr
    refine ⟨l, List.mem_filter.mpr ⟨hmem, ?_⟩, rfl⟩
    have hw : likesWhere caller l = true := by
      unfold likesWhere
      cases caller with
      | none => rfl
      | some u =>
        have huid : l.userId = u := by
          injection hcaller
        by_cases ht : strTruthy u <;> simp [ht, huid]
    simp [hcid, hw]

theorem allNodes_youLiked (db : DB) (caller : Option String) :
    ∀ (d : Nat) (c : Comment) (s : Shaped),
      s ∈ (shapeComment caller (fetchNode db caller d c)).allNodes →
      s.youLikedThis = ((likesForComment db caller s.id).any
        (fun u => (some u : Option String) == caller)) := by
  intro d
  induction d with
  | zero =>
    intro c s hs
    simp only [fetchNode, shapeComment, Shaped.allNodes] at hs
    rcases List.mem_singleton.mp hs with rfl
    rfl
  | succ d ih =>
    intro c s hs
    simp only [fetchNode, shapeComment, Shaped.allNodes] at hs
    rcases List.mem_cons.mp hs with rfl | hs
    · rfl
    · rcases mem_allNodesList hs with ⟨t, ht, hst⟩
      rw [shapeComments_eq_map] at ht
      rcases List.mem_map.mp ht with ⟨r, hr, rfl⟩
      rcases List.mem_map.mp hr with ⟨ch, _, rfl⟩
      exact ih ch s hst

/-- C1: every node reachable in the `data` field returned by `get` sits at
depth at most 6 below its top-level ancestor (`height` bounds the depth of
the deepest reachable descendant); comments stored deeper than the sixth
level are simply absent, and `get` is a total function, so no error is
raised. -/
theorem get_depth_bounded (db : DB) (caller : Option String) (postId : Nat)
    (s : Shaped) (hs : s ∈ (getComments db caller postId).1) :
    s.height ≤ 6 := by
  simp only [getComments] at hs
  rw [shapeComments_eq_map] at hs
  rcases List.mem_map.mp hs with ⟨r, hr, rfl⟩
  rcases List.mem_map.mp hr with ⟨c, _, rfl⟩
  exact shape_fetch_height db caller 6 c

/-- Witness for C1: `dbW` stores a reply chain eight levels deep, yet the
tree `get` returns for its post is cut off at depth 6. -/
theorem get_depth_bounded_witness : topW.height ≤ 6 :=
  get_depth_bounded dbW (some "alice") 1 topW (List.Mem.head _)

/-- C5: for every node reachable in the data returned by `get`,
`youLikedThis` is true exactly when a Like row with the caller's user id
exists for that exact comment; with no caller id supplied, `youLikedThis` is
false on every node. -/
theorem get_youLikedThis_iff (db : DB) (caller : Option String) (postId : Nat)
    (t s : Shaped) (ht : t ∈ (getComments db caller postId).1)
    (hs : s ∈ t.allNodes) :
    (s.youLikedThis = true ↔
      ∃ l ∈ db.likes, l.commentId = s.id ∧ some l.userId = caller) ∧
    (caller = none → s.youLikedThis = false) := by
  simp only [getComments] at ht
  rw [shapeComments_eq_map] at ht
  rcases List.mem_map.mp ht with ⟨r, hr, rfl⟩
  rcases List.mem_map.mp hr with ⟨c, _, rfl⟩
  have hinv := allNodes_youLiked db caller 6 c s hs
  constructor
  · rw [hinv]
    exact likes_any_iff db caller s.id
  · rintro rfl
    rw [hinv, Bool.eq_false_iff]
    intro hany
    rcases List.any_eq_true.mp hany with ⟨u, _, hu⟩
    simp at hu

/-- Witness for C5: alice liked comment 2 of `dbW`; on the node of comment 2
reachable in `get`'s data, `youLikedThis` is equivalent to that Like row's
existence. -/
theorem get_youLikedThis_iff_witness :
    (nodeW.youLikedThis = true ↔
      ∃ l ∈ dbW.likes, l.commentId = nodeW.id ∧ some l.userId = some "alice") ∧
    (some "alice" = (none : Option String) → nodeW.youLikedThis = false) :=
  get_youLikedThis_iff dbW (some "alice") 1 topW nodeW (List.Mem.head _)
    (List.Mem.tail _ (List.Mem.head _))

/-- C4: the `count` field returned by `get(postId)` equals the total number of
comment rows whose `postId` matches, counting comments at every nesting depth
— the count query does not constrain `parentId`, so rows beyond the 6-level
cutoff that are omitted from `data` are still counted. -/
theorem get_count_counts_all_rows (db : DB) (caller : Option String)
    (postId : Nat) :
    (getComments db caller postId).2 =
      db.comments.countP (fun c => c.postId == postId) := by
  simp [getComments, List.countP_eq_length_filter]

/-- C6: an `edit` call on a stored comment whose `userId` differs from the
caller fails with the Forbidden error, and the store is returned unchanged. -/
theorem edit_nonowner_forbidden (db : DB) (caller : String) (id : Nat)
    (body : String) (c : Comment)
    (hfind : db.comments.find? (fun x => x.id == id) = some c)
    (howner : c.userId ≠ caller) :
    edit db caller id body = (db, Except.error RpcError.forbidden) := by
  unfold edit
  rw [hfind]
  simp [howner]

/-- Witness for C6: bob cannot edit alice's comment 1; the store is
unchanged. -/
theorem edit_nonowner_forbidden_witness :
    edit dbW "bob" 1 "zzz" = (dbW, Except.error RpcError.forbidden) :=
  edit_nonowner_forbidden dbW "bob" 1 "zzz"
    { id := 1, userId := "alice", postId := 1, parentId := none,
      body := "c1", createdAt := 10, updatedAt := 10 }
    rfl (by decide)

/-- C7: an `edit` call by the owner with a body equal to the stored body
performs no store write and returns the original stored record unchanged. -/
theorem edit_same_body_noop (db : DB) (caller : String) (id : Nat)
    (body : String) (c : Comment)
    (hfind : db.comments.find? (fun x => x.id == id) = some c)
    (howner : c.userId = caller) (hbody : c.body = body) :
    edit db caller id body = (db, Except.ok (EditResult.record c)) := by
  unfold edit
  rw [hfind]
  simp [howner, hbody]

/-- Witness for C7: alice edits her comment 1 with the stored body; the store
is untouched and the stored record comes back. -/
theorem edit_same_body_noop_witness :
    edit dbW "alice" 1 "c1" =
      (dbW, Except.ok (EditResult.record
        { id := 1, userId := "alice", postId := 1, parentId := none,
          body := "c1", createdAt := 10, updatedAt := 10 })) :=
  edit_same_body_noop dbW "alice" 1 "c1"
    { id := 1, userId := "alice", postId := 1, parentId := none,
      body := "c1", createdAt := 10, updatedAt := 10 }
    rfl rfl rfl

/-- C9: an `edit` call by the owner with a different body rewrites exactly the
`body` field of the rows matching the id (every other field and every other
table is untouched) and returns the raw outcome of the update statement — the
`updated` constructor, never a re-fetched comment record. -/
theorem edit_updates_only_body (db : DB) (caller : String) (id : Nat)
    (body : String) (c : Comment)
    (hfind : db.comments.find? (fun x => x.id == id) = some c)
    (howner : c.userId = caller) (hbody : c.body ≠ body) :
    (edit db caller id body).1.comments =
      db.comments.map (fun x => if x.id = id then
        { id := x.id, userId := x.userId, postId := x.postId,
          parentId := x.parentId, body := body, createdAt := x.createdAt,
          updatedAt := x.updatedAt } else x) ∧
    (edit db caller id body).1.posts = db.posts ∧
    (edit db caller id body).1.likes = db.likes ∧
    (edit db caller id body).1.notifications = db.notifications ∧
    ∃ o : UpdateOutcome,
      (edit db caller id body).2 = Except.ok (EditResult.updated o) := by
  unfold edit
  rw [hfind]
  simp [howner, hbody]

/-- Witness for C9: alice rewrites the body of her comment 1; only that row's
body changes and the result is an update outcome. -/
theorem edit_updates_only_body_witness :
    (edit dbW "alice" 1 "new").1.comments =
      dbW.comments.map (fun x => if x.id = 1 then
        { id := x.id, userId := x.userId, postId := x.postId,
          parentId := x.parentId, body := "new", createdAt := x.createdAt,
          updatedAt := x.updatedAt } else x) ∧
    (edit dbW "alice" 1 "new").1.posts = dbW.posts ∧
    (edit dbW "alice" 1 "new").1.likes = dbW.likes ∧
    (edit dbW "alice" 1 "new").1.notifications = dbW.notifications ∧
    ∃ o : UpdateOutcome,
      (edit dbW "alice" 1 "new").2 = Except.ok (EditResult.updated o) :=
  edit_updates_only_body dbW "alice" 1 "new"
    { id := 1, userId := "alice", postId := 1, parentId := none,
      body := "c1", createdAt := 10, updatedAt := 10 }
    rfl rfl (by decide)

/-- C10: an `edit` or `delete` call whose id matches no stored comment throws
the Forbidden error (the ownership comparison against the absent record
fails), not a NotFound error, and the store is unchanged. -/
theorem missing_comment_forbidden (db : DB) (caller : String) (id : Nat)
    (body : String)
    (hfind : db.comments.find? (fun x => x.id == id) = none) :
    edit db caller id body = (db, Except.error RpcError.forbidden) ∧
    deleteComment db caller id = (db, Except.error RpcError.forbidden) := by
  unfold edit deleteComment
  rw [hfind]
  exact ⟨rfl, rfl⟩

/-- Witness for C10: no comment 99 exists; edit and delete both come back
Forbidden with the store unchanged. -/
theorem missing_comment_forbidden_witness :
    edit dbW "alice" 99 "zzz" = (dbW, Except.error RpcError.forbidden) ∧
    deleteComment dbW "alice" 99 = (dbW, Except.error RpcError.forbidden) :=
  missing_comment_forbidden dbW "alice" 99 "zzz" rfl

end CommentRouter
